import Mathlib

/-!
Verification development for the ebay_watch_analyzer pipeline.

The Python source is shallowly embedded: JSON values become the inductive
`JVal`; Python floats become `ℚ`; `None` becomes `Option.none`; functions
that can raise return `Except`/`Option` or an explicit outcome type.
Network I/O (the HTTP body actually returned by a provider) is abstracted
as an explicit input to the functions that consume it; everything after
the response text is received is modelled faithfully from the source.
-/

/-- A JSON value, as produced by `json.loads` in the source. -/
inductive JVal where
  | null
  | bool (b : Bool)
  | num (q : ℚ)
  | str (s : String)
  | arr (xs : List JVal)
  | obj (fields : List (String × JVal))

namespace JVal

def isObj : JVal → Bool
  | .obj _ => true
  | _ => false

end JVal

mutual

def JVal.decEq : (a b : JVal) → Decidable (a = b)
  | .null, .null => isTrue rfl
  | .null, .bool _ => isFalse (fun h => JVal.noConfusion h)
  | .null, .num _ => isFalse (fun h => JVal.noConfusion h)
  | .null, .str _ => isFalse (fun h => JVal.noConfusion h)
  | .null, .arr _ => isFalse (fun h => JVal.noConfusion h)
  | .null, .obj _ => isFalse (fun h => JVal.noConfusion h)
  | .bool _, .null => isFalse (fun h => JVal.noConfusion h)
  | .bool a, .bool b =>
      match instDecidableEqBool a b with
      | isTrue h => isTrue (by rw [h])
      | isFalse h => isFalse (fun heq => h (JVal.bool.inj heq))
  | .bool _, .num _ => isFalse (fun h => JVal.noConfusion h)
  | .bool _, .str _ => isFalse (fun h => JVal.noConfusion h)
  | .bool _, .arr _ => isFalse (fun h => JVal.noConfusion h)
  | .bool _, .obj _ => isFalse (fun h => JVal.noConfusion h)
  | .num _, .null => isFalse (fun h => JVal.noConfusion h)
  | .num _, .bool _ => isFalse (fun h => JVal.noConfusion h)
  | .num a, .num b =>
      match (inferInstance : DecidableEq ℚ) a b with
      | isTrue h => isTrue (by rw [h])
      | isFalse h => isFalse (fun heq => h (JVal.num.inj heq))
  | .num _, .str _ => isFalse (fun h => JVal.noConfusion h)
  | .num _, .arr _ => isFalse (fun h => JVal.noConfusion h)
  | .num _, .obj _ => isFalse (fun h => JVal.noConfusion h)
  | .str _, .null => isFalse (fun h => JVal.noConfusion h)
  | .str _, .bool _ => isFalse (fun h => JVal.noConfusion h)
  | .str _, .num _ => isFalse (fun h => JVal.noConfusion h)
  | .str a, .str b =>
      match String.decEq a b with
      | isTrue h => isTrue (by rw [h])
      | isFalse h => isFalse (fun heq => h (JVal.str.inj heq))
  | .str _, .arr _ => isFalse (fun h => JVal.noConfusion h)
  | .str _, .obj _ => isFalse (fun h => JVal.noConfusion h)
  | .arr _, .null => isFalse (fun h => JVal.noConfusion h)
  | .arr _, .bool _ => isFalse (fun h => JVal.noConfusion h)
  | .arr _, .num _ => isFalse (fun h => JVal.noConfusion h)
  | .arr _, .str _ => isFalse (fun h => JVal.noConfusion h)
  | .arr xs, .arr ys =>
      match JVal.decEqList xs ys with
      | isTrue h => isTrue (by rw [h])
      | isFalse h => isFalse (fun heq => h (JVal.arr.inj heq))
  | .arr _, .obj _ => isFalse (fun h => JVal.noConfusion h)
  | .obj _, .null => isFalse (fun h => JVal.noConfusion h)
  | .obj _, .bool _ => isFalse (fun h => JVal.noConfusion h)
  | .obj _, .num _ => isFalse (fun h => JVal.noConfusion h)
  | .obj _, .str _ => isFalse (fun h => JVal.noConfusion h)
  | .obj _, .arr _ => isFalse (fun h => JVal.noConfusion h)
  | .obj xs, .obj ys =>
      match JVal.decEqFields xs ys with
      | isTrue h => isTrue (by rw [h])
      | isFalse h => isFalse (fun heq => h (JVal.obj.inj heq))

def JVal.decEqList : (xs ys : List JVal) → Decidable (xs = ys)
  | [], [] => isTrue rfl
  | [], _ :: _ => isFalse (fun h => List.noConfusion h)
  | _ :: _, [] => isFalse (fun h => List.noConfusion h)
  | x :: xs, y :: ys =>
      match JVal.decEq x y with
      | isFalse h1 => isFalse (fun h => h1 (List.cons.inj h).1)
      | isTrue h1 =>
          match JVal.decEqList xs ys with
          | isTrue h2 => isTrue (by rw [h1, h2])
          | isFalse h2 => isFalse (fun h => h2 (List.cons.inj h).2)

def JVal.decEqFields : (xs ys : List (String × JVal)) → Decidable (xs = ys)
  | [], [] => isTrue rfl
  | [], _ :: _ => isFalse (fun h => List.noConfusion h)
  | _ :: _, [] => isFalse (fun h => List.noConfusion h)
  | (k, v) :: xs, (l, w) :: ys =>
      match String.decEq k l with
      | isFalse hk => isFalse (fun h => hk (congrArg Prod.fst (List.cons.inj h).1))
      | isTrue hk =>
          match JVal.decEq v w with
          | isFalse hv => isFalse (fun h => hv (congrArg Prod.snd (List.cons.inj h).1))
          | isTrue hv =>
              match JVal.decEqFields xs ys with
              | isTrue ht => isTrue (by rw [hk, hv, ht])
              | isFalse ht => isFalse (fun h => ht (List.cons.inj h).2)

end

instance : DecidableEq JVal := JVal.decEq

/-- Python `d.get(k)` on a parsed-JSON dict. JSON `null` parses to Python
`None`, which is what `.get` returns for a missing key as well, so both
collapse to `none`. Lookups on non-dict values (which raise in Python)
are modelled as absent; no claim exercises that case. -/
def pyGet (v : JVal) (key : String) : Option JVal :=
  match v with
  | .obj fields =>
      match fields.lookup key with
      | some .null => none
      | r => r
  | _ => none

/-- Python truthiness of a parsed-JSON value. -/
def pyTruthy : JVal → Bool
  | .null => false
  | .bool b => b
  | .num q => q ≠ 0
  | .str s => s ≠ ""
  | .arr xs => !xs.isEmpty
  | .obj fields => !fields.isEmpty

/-- Python `str(x)` on a parsed-JSON value. Numeric rendering keeps no
int/float distinction and container reprs are not modelled; no claim
depends on those renderings. -/
def pyStr : JVal → String
  | .null => "None"
  | .bool true => "True"
  | .bool false => "False"
  | .num q => toString q
  | .str s => s
  | .arr _ => "\x7barr\x7d"
  | .obj _ => "\x7bobj\x7d"

/-- Python `str(d.get(k) or "")`: falsy values (including a missing key)
become the empty string. -/
def pyStrOrEmpty (v : JVal) (key : String) : String :=
  match pyGet v key with
  | none => ""
  | some w => if pyTruthy w then pyStr w else ""

/-- Python `d.get(k) or {}`: a missing key or any falsy value is replaced
by the empty dict. -/
def pyGetOrEmptyObj (v : JVal) (key : String) : JVal :=
  match pyGet v key with
  | none => .obj []
  | some w => if pyTruthy w then w else .obj []

/-- Python `d.get(k) or []`: a missing key or any falsy value is replaced
by the empty list. -/
def pyGetOrEmptyArr (v : JVal) (key : String) : JVal :=
  match pyGet v key with
  | none => .arr []
  | some w => if pyTruthy w then w else .arr []

/-- Characters stripped by Python `str.strip()` / skipped by `float()`. -/
def isPySpace (c : Char) : Bool := c.isWhitespace

/-- Python `str.strip()` (whitespace at both ends). -/
def pyStrip (s : String) : String :=
  String.mk (((s.data.dropWhile isPySpace).reverse.dropWhile isPySpace).reverse)

/-- Python `str.lower()` (ASCII case folding suffices for the inputs the
source feeds it). -/
def pyLower (s : String) : String :=
  String.mk (s.data.map Char.toLower)

def digitsToNat (ds : List Char) : ℕ :=
  ds.foldl (fun n c => n * 10 + (c.toNat - '0'.toNat)) 0

/-- Decimal forms accepted by Python `float(str)`: optional sign, digits
with an optional fractional part, at least one digit. Exponent, `inf` and
`nan` literals are not modelled; no claim exercises them. -/
def parseDecimalChars (s : List Char) : Option ℚ :=
  let intPart := s.takeWhile Char.isDigit
  let rest := s.dropWhile Char.isDigit
  match rest with
  | [] => if intPart.isEmpty then none else some (digitsToNat intPart : ℚ)
  | '.' :: frac =>
      if frac.all Char.isDigit && !(intPart.isEmpty && frac.isEmpty) then
        some ((digitsToNat intPart : ℚ) + (digitsToNat frac : ℚ) / (10 : ℚ) ^ frac.length)
      else none
  | _ => none

def parseDecimal (s : String) : Option ℚ :=
  match (pyStrip s).data with
  | '-' :: rest => (parseDecimalChars rest).map (fun q => -q)
  | '+' :: rest => parseDecimalChars rest
  | cs => parseDecimalChars cs

namespace AiAnalysis

/-- Model of `_safe_float` (src/ai_analysis.py:360-366): `float(value)` with
`TypeError`/`ValueError` mapped to `None`. Python `float` accepts numbers,
booleans and numeric strings. -/
def safe_float : Option JVal → Option ℚ
  | none => none
  | some .null => none
  | some (.num q) => some q
  | some (.bool b) => some (if b then 1 else 0)
  | some (.str s) => parseDecimal s
  | some (.arr _) => none
  | some (.obj _) => none

/-- Outcome of `json.loads` on the (code-fence-stripped) provider text:
the text was empty, failed to decode, or decoded to a value. -/
inductive ParseOutcome where
  | emptyText
  | jsonError
  | ok (v : JVal)

/-- Model of `_parse_json` (src/ai_analysis.py:304-315): empty text and a
`JSONDecodeError` both yield the empty dict; the code-fence stripping
happens on the raw text before decoding and is absorbed into the
`ParseOutcome` abstraction. -/
def parse_json : ParseOutcome → JVal
  | .emptyText => .obj []
  | .jsonError => .obj []
  | .ok v => v

/-- The fixed Analysis Result schema (the `ai_*` keys of the source). -/
structure AiResult where
  ai_provider : Option String
  ai_model : Option String
  ai_flip_candidate : Option Bool
  ai_equivalent_sale_price : Option ℚ
  ai_sell_ease : Option JVal
  ai_needed_parts : Option String
  ai_parts_cost_estimate : Option ℚ
  ai_confidence : Option ℚ
  ai_summary : Option JVal
  ai_estimated_profit : Option ℚ
  ai_error : Option String
deriving DecidableEq

/-- Model of `_normalize_analysis` (src/ai_analysis.py:318-341). -/
def normalize_analysis (parsed : JVal) (provider model : String) (all_in_cost : ℚ) : AiResult :=
  let equivalent_sale_price := safe_float (pyGet parsed "equivalent_sale_price")
  let parts_cost_estimate := safe_float (pyGet parsed "parts_cost_estimate")
  let estimated_profit :=
    match equivalent_sale_price with
    | none => none
    | some e => some (e - all_in_cost - parts_cost_estimate.getD 0)
  let needed_parts :=
    match pyGet parsed "needed_parts" with
    | some (.arr xs) => xs
    | _ => []
  { ai_provider := some provider
    ai_model := some model
    ai_flip_candidate :=
      if pyTruthy parsed then
        some (match pyGet parsed "flip_candidate" with
              | none => false
              | some v => pyTruthy v)
      else none
    ai_equivalent_sale_price := equivalent_sale_price
    ai_sell_ease := pyGet parsed "sell_ease"
    ai_needed_parts :=
      some (String.intercalate ";" ((needed_parts.filter pyTruthy).map pyStr))
    ai_parts_cost_estimate := parts_cost_estimate
    ai_confidence := safe_float (pyGet parsed "confidence")
    ai_summary := pyGet parsed "summary"
    ai_estimated_profit := estimated_profit
    ai_error := none }

/-- Model of `_empty_result` (src/ai_analysis.py:344-357). -/
def empty_result (provider reason : String) : AiResult :=
  { ai_provider := some provider
    ai_model := none
    ai_flip_candidate := none
    ai_equivalent_sale_price := none
    ai_sell_ease := none
    ai_needed_parts := none
    ai_parts_cost_estimate := none
    ai_confidence := none
    ai_summary := none
    ai_estimated_profit := none
    ai_error := some reason }

/-- Truthiness of a Python value that is either `None` or a `str`. -/
def strOptTruthy : Option String → Bool
  | none => false
  | some s => s ≠ ""

/-- The per-entry body of the loop in `analyze_gemini_bulk`
(src/ai_analysis.py:114-123): normalize the echoed entry using the
`all_in_cost` echoed inside that entry, then preserve an explicit
model-side `ai_error` if one was returned and the normalizer assigned
none. -/
def entry_result (entry : JVal) (model : String) : AiResult :=
  let normalized :=
    normalize_analysis entry "gemini" model ((safe_float (pyGet entry "all_in_cost")).getD 0)
  match pyGet entry "ai_error" with
  | some v =>
      if pyTruthy v && !(strOptTruthy normalized.ai_error) then
        { normalized with ai_error := some (pyStr v) }
      else normalized
  | none => normalized

/-- Insert-or-replace on the `result_by_item` dict
(`result_by_item[item_id] = normalized`). -/
def dictInsert (m : List (String × AiResult)) (k : String) (v : AiResult) :
    List (String × AiResult) :=
  if (m.lookup k).isSome then
    m.map (fun p => if p.1 = k then (k, v) else p)
  else m ++ [(k, v)]

/-- The `result_by_item` accumulation of `analyze_gemini_bulk`
(src/ai_analysis.py:107-125): skip non-dict entries and entries whose
stripped `itemId` is empty. -/
def build_results (analyses : List JVal) (model : String) : List (String × AiResult) :=
  analyses.foldl
    (fun m entry =>
      if entry.isObj then
        let item_id := pyStrip (pyStrOrEmpty entry "itemId")
        if item_id = "" then m else dictInsert m item_id (entry_result entry model)
      else m)
    []

/-- Model of `(os.getenv("AI_PROVIDER") or "").strip().lower()`
(src/ai_analysis.py:34, 53). -/
def providerOf (env : Option String) : String :=
  pyLower (pyStrip (env.getD ""))

/-- Abstraction of what the Gemini bulk HTTP call produced: either the
transport raised `AiAnalysisError` (HTTP error or retries exceeded), or a
response text whose JSON-decoding outcome is given. -/
inductive BulkNet where
  | raised (msg : String)
  | text (t : ParseOutcome)

/-- Model of `analyze_gemini_bulk` (src/ai_analysis.py:48-125): the configuration
checks, then response decoding, shape check, and per-entry accumulation.
`Except.error` models a raised `AiAnalysisError`; the prompt build, rate
limiting and HTTP call are absorbed into the `BulkNet` abstraction. -/
def analyze_gemini_bulk (providerEnv apiKey : Option String) (model : String)
    (net : BulkNet) : Except String (List (String × AiResult)) :=
  let provider := providerOf providerEnv
  if provider ≠ "gemini" then .error "Bulk Gemini analysis requires AI_PROVIDER=gemini"
  else if !(strOptTruthy apiKey) then .error "GEMINI_API_KEY missing"
  else
    match net with
    | .raised msg => .error msg
    | .text t =>
        let parsed := parse_json t
        let analyses := if parsed.isObj then pyGet parsed "analyses" else none
        match analyses with
        | some (.arr entries) => .ok (build_results entries model)
        | _ => .error "Gemini bulk response missing 'analyses' array"

end AiAnalysis

namespace App

open AiAnalysis

/-- The Candidate Row columns the verified claims touch (the remaining
columns built by `build_candidate_row` are carried opaquely by the real
dict and play no role in the claimed behavior). `score_total` is always
populated from the Score Result; `itemId` and `all_in_cost` are optional
listing-derived fields. -/
structure CandidateRow where
  itemId : Option JVal
  all_in_cost : Option ℚ
  score_total : ℚ
deriving DecidableEq

/-- Model of `str(row.get("itemId") or "")` (src/app.py:166). -/
def rowIdStr (r : CandidateRow) : String :=
  match r.itemId with
  | none => ""
  | some v => if pyTruthy v then pyStr v else ""

/-- Model of `_default_ai_error` (src/app.py:133-146). -/
def default_ai_error (provider model message : String) : AiResult :=
  { ai_provider := some provider
    ai_model := some model
    ai_flip_candidate := none
    ai_equivalent_sale_price := none
    ai_sell_ease := none
    ai_needed_parts := none
    ai_parts_cost_estimate := none
    ai_confidence := none
    ai_summary := none
    ai_estimated_profit := none
    ai_error := some message }

/-- One enriched output row: `enriched = dict(row); enriched.update(ai_result)`.
The row columns and the `ai_*` columns are disjoint, so the update is a
pairing. -/
structure EnrichedRow where
  row : CandidateRow
  ai : AiResult
deriving DecidableEq

/-- The backfill loop of `_gemini_process_all` (src/app.py:161-178): every
candidate row yields exactly one enriched row; an identifier with no bulk
result receives the `_default_ai_error` placeholder. The `setdefault`
calls are no-ops on the schema-complete `AiResult`. -/
def enrichRows (rows : List CandidateRow) (results : List (String × AiResult))
    (model bulkError : String) : List EnrichedRow :=
  rows.map (fun r =>
    { row := r
      ai :=
        match results.lookup (rowIdStr r) with
        | none => default_ai_error "gemini" model bulkError
        | some a => a })

/-- The pandas comparator for
`sort_values(by=["ai_estimated_profit", "score_total"],
ascending=[False, False], na_position="last")` (src/app.py:182):
profit descending with nulls last, then score descending. -/
def leEnriched (a b : EnrichedRow) : Bool :=
  match a.ai.ai_estimated_profit, b.ai.ai_estimated_profit with
  | some x, some y => x > y || (x = y && a.row.score_total ≥ b.row.score_total)
  | some _, none => true
  | none, some _ => false
  | none, none => a.row.score_total ≥ b.row.score_total

/-- Model of `_gemini_process_all` (src/app.py:149-183): run the bulk analysis,
on `AiAnalysisError` degrade to an empty result map with the exception
text as the shared backfill error, otherwise backfill gaps with the fixed
message; finally sort by estimated profit (nulls last) then score. The
sort algorithm models the pandas sort; the claims only rely on the
resulting order, not on tie placement. -/
def gemini_process_all (rows : List CandidateRow) (providerEnv apiKey : Option String)
    (model : String) (net : BulkNet) : List EnrichedRow :=
  let processed :=
    match analyze_gemini_bulk providerEnv apiKey model net with
    | .error msg => enrichRows rows [] model msg
    | .ok results => enrichRows rows results model "No per-item AI output from bulk response"
  List.insertionSort (fun a b => leEnriched a b = true) processed

/-- The pandas comparator for
`sort_values(by=["score_total", "all_in_cost"], ascending=[False, True])`
(src/app.py:248): score descending, then all-in cost ascending with nulls
last (the pandas default `na_position`). -/
def leBase (a b : CandidateRow) : Bool :=
  a.score_total > b.score_total ||
    (a.score_total = b.score_total &&
      match a.all_in_cost, b.all_in_cost with
      | some x, some y => x ≤ y
      | some _, none => true
      | none, some _ => false
      | none, none => true)

/-- The un-enriched `candidates.csv` ordering (src/app.py:247-248). -/
def base_sorted (rows : List CandidateRow) : List CandidateRow :=
  List.insertionSort (fun a b => leBase a b = true) rows

/-- The eBay credential check in `main` (src/app.py:192-197): a missing or
empty client id or secret raises `RuntimeError` before any work is done. -/
def main_cred_check (clientId clientSecret : Option String) : Except String Unit :=
  if !(strOptTruthy clientId) || !(strOptTruthy clientSecret) then
    .error "Missing EBAY_CLIENT_ID or EBAY_CLIENT_SECRET in environment"
  else .ok ()

/-- The provider gate in `main` (src/app.py:253-256): the bulk path is
invoked only when the configured provider is exactly `gemini`. -/
def main_runs_bulk (providerEnv : Option String) : Bool :=
  providerOf providerEnv = "gemini"

end App

namespace Storage

/-- The `seen_items` table: rows of `(item_id, first_seen_at)` with
`item_id` as primary key, in insertion order. -/
abbrev SeenDb := List (String × String)

/-- Model of `is_seen` (src/storage.py:20-23). -/
def is_seen (db : SeenDb) (item_id : String) : Bool :=
  (db.lookup item_id).isSome

/-- Model of `mark_seen` (src/storage.py:26-36): `INSERT` appends a fresh row; a
duplicate primary key raises `sqlite3.IntegrityError`, which is caught and
mapped to `None` with the table unchanged. Returns the new table together
with the Python return value (`item_id` on a fresh insert, `None` on a
duplicate). -/
def mark_seen (db : SeenDb) (item_id timestamp : String) : Option String × SeenDb :=
  match db.lookup item_id with
  | some _ => (none, db)
  | none => (some item_id, db ++ [(item_id, timestamp)])

end Storage

namespace Scoring

open AiAnalysis

/-- The keyword → weight table (src/scoring.py:6-14), in insertion order. -/
def KEYWORDS : List (String × ℚ) :=
  [("not working", 12), ("for parts", 10), ("repair", 8), ("untested", 8),
   ("as is", 6), ("needs battery", 6), ("unknown", 4)]

/-- Model of `ScoreResult` (src/scoring.py:17-20). -/
structure ScoreResult where
  score : ℚ
  reasons : List String
deriving DecidableEq

/-- Python `needle in hay` substring test on character lists. -/
def containsSub (needle : List Char) : List Char → Bool
  | [] => needle.isEmpty
  | c :: t => needle.isPrefixOf (c :: t) || containsSub needle t

def strContains (hay needle : String) : Bool :=
  containsSub needle.data hay.data

/-- Model of `_normalize_text` (src/scoring.py:23-24): lowercase the non-empty
values and join with spaces. -/
def normalize_text (values : List String) : String :=
  String.intercalate " " ((values.filter (fun v => v ≠ "")).map pyLower)

/-- A text field read for `_normalize_text`: `item.get(k, "")` — a missing
key defaults to the empty string; a present non-string (which would make
`.lower()` raise in Python) is not exercised by any claim and is modelled
as empty. -/
def getTextField (item : JVal) (key : String) : String :=
  match pyGet item key with
  | some (.str s) => s
  | _ => ""

/-- Computable floor of a rational. -/
def ratFloor (q : ℚ) : ℤ := Int.fdiv q.num q.den

/-- Python `round` to an integer: round-half-to-even. -/
def roundHalfEven (q : ℚ) : ℤ :=
  let f := ratFloor q
  let r := q - (f : ℚ)
  if r < 1 / 2 then f
  else if 1 / 2 < r then f + 1
  else if 2 ∣ f then f else f + 1

/-- Python `round(score, 2)`. -/
def round2 (q : ℚ) : ℚ := (roundHalfEven (q * 100) : ℚ) / 100

/-- Numeric comparison used for the seller-feedback thresholds: Python
`value >= threshold` where `value` came from JSON. Booleans are numeric in
Python; comparing a non-numeric value raises in Python and is not
exercised by any claim (modelled as a failed comparison). -/
def jge (v : JVal) (threshold : ℚ) : Bool :=
  match v with
  | .num a => a ≥ threshold
  | .bool b => (if b then (1 : ℚ) else 0) ≥ threshold
  | _ => false

/-- Model of `_extract_price` (src/scoring.py:97-107). Returns
`(price_value, shipping_value, all_in_cost)`. -/
def extract_price (item : JVal) : Option ℚ × Option ℚ × Option ℚ :=
  let price := pyGetOrEmptyObj item "price"
  let shipping := pyGetOrEmptyArr item "shippingOptions"
  let price_value := safe_float (pyGet price "value")
  let shipping_value :=
    match shipping with
    | .arr (first :: _) => safe_float ((pyGet first "shippingCost").bind (fun sc => pyGet sc "value"))
    | _ => none
  match price_value with
  | none => (none, shipping_value, none)
  | some pv => (some pv, shipping_value, some (pv + shipping_value.getD 0))

/-- Model of `extract_pricing` (src/scoring.py:119-125) is `_extract_price`
repackaged; the Candidate Row's `all_in_cost` is its third component. -/
def extract_pricing_all_in_cost (item : JVal) : Option ℚ :=
  (extract_price item).2.2

/-- Everything `score_item` accumulates before the cost-band block
(src/scoring.py:32-81): keyword hits, condition bonus, seller feedback
deltas, and the return-policy delta. -/
def score_item_core (item : JVal) (min_feedback_pct : ℚ) (min_feedback_score : ℚ) :
    ℚ × List String :=
  let normalized :=
    normalize_text [getTextField item "title", getTextField item "shortDescription",
                    getTextField item "conditionDescription"]
  let afterKeywords :=
    KEYWORDS.foldl
      (fun acc kw =>
        if strContains normalized kw.1 then (acc.1 + kw.2, acc.2 ++ ["keyword:" ++ kw.1])
        else acc)
      ((0 : ℚ), ([] : List String))
  let condition_id := pyStrOrEmpty item "conditionId"
  let afterCondition :=
    if condition_id = "7000" then
      (afterKeywords.1 + 10, afterKeywords.2 ++ ["condition:for_parts"])
    else afterKeywords
  let seller := pyGetOrEmptyObj item "seller"
  let feedback_pct := pyGet seller "feedbackPercentage"
  let feedback_score := pyGet seller "feedbackScore"
  let afterPct :=
    match feedback_pct with
    | some v =>
        if jge v min_feedback_pct then
          (afterCondition.1 + 5, afterCondition.2 ++ ["seller:high_feedback_pct"])
        else (afterCondition.1 - 8, afterCondition.2 ++ ["seller:low_feedback_pct"])
    | none => (afterCondition.1, afterCondition.2 ++ ["seller:missing_feedback_pct"])
  let afterScore :=
    match feedback_score with
    | some v =>
        if jge v min_feedback_score then
          (afterPct.1 + 5, afterPct.2 ++ ["seller:high_feedback_score"])
        else (afterPct.1 - 6, afterPct.2 ++ ["seller:low_feedback_score"])
    | none => (afterPct.1, afterPct.2 ++ ["seller:missing_feedback_score"])
  let return_terms := pyGetOrEmptyObj item "returnTerms"
  let returns_accepted := pyGet return_terms "returnsAccepted"
  match returns_accepted with
  | some (.bool true) => (afterScore.1 + 4, afterScore.2 ++ ["returns:accepted"])
  | some (.bool false) => (afterScore.1 - 4, afterScore.2 ++ ["returns:not_accepted"])
  | _ => afterScore

/-- Model of `score_item` (src/scoring.py:27-94): the pre-price accumulation, then
the cost-band block (lines 82-93), then `round(score, 2)`. -/
def score_item (item : JVal) (min_feedback_pct : ℚ) (min_feedback_score : ℚ) : ScoreResult :=
  let acc := score_item_core item min_feedback_pct min_feedback_score
  let all_in_cost := (extract_price item).2.2
  let final :=
    match all_in_cost with
    | none => acc
    | some c =>
        if c ≤ 100 then (acc.1 + 4, acc.2 ++ ["price:<=100"])
        else if c ≤ 200 then (acc.1 + 2, acc.2 ++ ["price:<=200"])
        else if c > 300 then (acc.1 - 3, acc.2 ++ ["price:>300"])
        else acc
  { score := round2 final.1, reasons := final.2 }

end Scoring

namespace AiAnalysis

/-- One HTTP attempt as seen by `_request_with_backoff`: either the
`requests` call raised a transient network exception
(`Timeout`/`ConnectionError`/`ChunkedEncodingError`), or it returned a
response with a status code and body text. -/
inductive HttpAttempt where
  | netError
  | resp (status : ℕ) (body : String)

/-- Result of the analysis transport. -/
inductive AiReq where
  | ok (status : ℕ) (body : String)
  | error (msg : String)
  | retriesExceeded
deriving DecidableEq

def aiRetriable (s : ℕ) : Bool :=
  s = 429 || s = 500 || s = 502 || s = 503 || s = 504

/-- The loop body of `_request_with_backoff` (src/ai_analysis.py:369-392),
indexed by the current `attempt` and the remaining iterations. Returns
the outcome together with the list of back-off sleeps performed
(`base_delay * 2**attempt` with `base_delay = 2.0`). -/
def ai_request_loop (att : ℕ → HttpAttempt) (attempt : ℕ) : ℕ → AiReq × List ℚ
  | 0 => (.retriesExceeded, [])
  | fuel + 1 =>
      match att attempt with
      | .netError =>
          let rest := ai_request_loop att (attempt + 1) fuel
          (rest.1, (2 * 2 ^ attempt : ℚ) :: rest.2)
      | .resp s b =>
          if aiRetriable s then
            let rest := ai_request_loop att (attempt + 1) fuel
            (rest.1, (2 * 2 ^ attempt : ℚ) :: rest.2)
          else if 400 ≤ s then
            (.error ("AI HTTP " ++ toString s ++ ": " ++ b.take 500), [])
          else (.ok s b, [])

/-- Model of `_request_with_backoff` (src/ai_analysis.py:369-392): `retries = 6`,
`base_delay = 2.0`; network errors and statuses 429/500/502/503/504 are
retried, any other status ≥ 400 raises `AiAnalysisError` with the status
and the body truncated to 500 characters, and exhausting the loop raises
the retries-exceeded error. -/
def request_with_backoff (att : ℕ → HttpAttempt) : AiReq × List ℚ :=
  ai_request_loop att 0 6

end AiAnalysis

namespace EbayApi

open AiAnalysis (HttpAttempt)

/-- The distinguishable `EbayApiError` raises of `_request_with_backoff`
(src/ebay_api.py:103-121); message rendering of the generic case is not
modelled beyond the status code. -/
inductive EbayError where
  | invalidClient
  | unauthorized (description : String)
  | generic (status : ℕ)
deriving DecidableEq

/-- Result of the listing-source transport. `uncaught` marks a `requests`
network exception, which this transport does not catch. -/
inductive EbayReq where
  | ok (status : ℕ)
  | apiError (e : EbayError)
  | uncaught
  | retriesExceeded
deriving DecidableEq

/-- The error construction of src/ebay_api.py:103-121: `details` is the
parsed JSON body when it decodes (`none` models both a non-JSON body and
the decode failure path), with the special 401 handling. -/
def ebayRaise (status : ℕ) (jsonBody : Option JVal) : EbayError :=
  match status, jsonBody with
  | 401, some d =>
      if d.isObj then
        if pyGet d "error" = some (.str "invalid_client") then .invalidClient
        else
          match pyGet d "error_description" with
          | some v => if pyTruthy v then .unauthorized (pyStr v) else .generic 401
          | none => .generic 401
      else .generic 401
  | _, _ => .generic status

/-- One HTTP attempt as seen by the eBay transport: the body is carried
both as decoded JSON (when it decodes) and as raw text. -/
inductive EbayAttempt where
  | netError
  | resp (status : ℕ) (jsonBody : Option JVal) (text : String)

/-- The loop body of `EbayApi._request_with_backoff`
(src/ebay_api.py:93-123): `retries = 5`, `base_delay = 1.0`; only status
429 is retried, any other status ≥ 400 raises `EbayApiError`, and a
network exception propagates uncaught. -/
def ebay_request_loop (att : ℕ → EbayAttempt) (attempt : ℕ) : ℕ → EbayReq × List ℚ
  | 0 => (.retriesExceeded, [])
  | fuel + 1 =>
      match att attempt with
      | .netError => (.uncaught, [])
      | .resp s j _ =>
          if s = 429 then
            let rest := ebay_request_loop att (attempt + 1) fuel
            (rest.1, (1 * 2 ^ attempt : ℚ) :: rest.2)
          else if 400 ≤ s then (.apiError (ebayRaise s j), [])
          else (.ok s, [])

def request_with_backoff (att : ℕ → EbayAttempt) : EbayReq × List ℚ :=
  ebay_request_loop att 0 5

end EbayApi

namespace AiAnalysis

/-- Model of `_apply_rate_limit` (src/ai_analysis.py:148-162) under an idealized
clock: `lastTs` is the module-global `_LAST_AI_REQUEST_TS`, `now` is what
`time.time()` returns on entry, sleeping `s` seconds advances the clock by
exactly `s`, and the trailing `time.time()` reads the advanced clock.
`rpmEnv` is the parsed `AI_REQUESTS_PER_MINUTE` (default 5, clamped to 5
when non-positive). Returns `(exit_time, new_last_ts)`. -/
def apply_rate_limit (rpmEnv : Option ℤ) (lastTs now : ℚ) : ℚ × ℚ :=
  let rpm0 := rpmEnv.getD 5
  let rpm := if rpm0 ≤ 0 then 5 else rpm0
  let min_interval : ℚ := 60 / (rpm : ℚ)
  let elapsed := now - lastTs
  let sleep_for :=
    if lastTs > 0 ∧ elapsed < min_interval then min_interval - elapsed else 0
  (now + sleep_for, now + sleep_for)

end AiAnalysis

/-! Spec-side definitions, written from the specification's words, to be
compared with the code-side definitions above. -/

/-- The cost-band contribution as the (amended) spec states it: ≤100 → +4,
(100,200] → +2, (200,300] → 0 with no reason tag, >300 → −3. -/
def specCostBand (c : ℚ) : ℚ × List String :=
  if c ≤ 100 then (4, ["price:<=100"])
  else if c ≤ 200 then (2, ["price:<=200"])
  else if c > 300 then (-3, ["price:>300"])
  else (0, [])

/-- The spec's sort contract for enriched output: `estimated_profit`
descending with nulls last, then `score` descending. -/
def specEnrichedOrder (a b : App.EnrichedRow) : Prop :=
  match a.ai.ai_estimated_profit, b.ai.ai_estimated_profit with
  | some x, some y => x > y ∨ (x = y ∧ a.row.score_total ≥ b.row.score_total)
  | some _, none => True
  | none, some _ => False
  | none, none => a.row.score_total ≥ b.row.score_total

/-- The spec's sort contract for un-enriched output: `score` descending,
then `all_in_cost` ascending. -/
def specBaseOrder (a b : App.CandidateRow) : Prop :=
  a.score_total > b.score_total ∨
    (a.score_total = b.score_total ∧
      match a.all_in_cost, b.all_in_cost with
      | some x, some y => x ≤ y
      | some _, none => True
      | none, some _ => False
      | none, none => True)

/-- An attempt outcome the analysis transport retries on: a network-level
transient error, or one of the retriable statuses. -/
def aiAttemptRetriable : AiAnalysis.HttpAttempt → Bool
  | .netError => true
  | .resp s _ => AiAnalysis.aiRetriable s

/-- An attempt outcome that is an HTTP 429 response. -/
def isResp429 : EbayApi.EbayAttempt → Bool
  | .netError => false
  | .resp s _ _ => s = 429

/-! Claim theorems. -/

/-- C1, counterexample: the claim asserts that for malformed (non-JSON)
provider text the normalized result has a non-null `error`, and that
`error` is null iff all value fields were derived from a well-formed
response. In the code, `_parse_json` silently downgrades malformed text to
the empty dict and `_normalize_analysis` unconditionally sets
`ai_error = None`, so the normalized result of malformed text has a null
error while no value field was derived. -/
theorem C1_error_field_counterexample :
    (AiAnalysis.normalize_analysis (AiAnalysis.parse_json AiAnalysis.ParseOutcome.jsonError)
        "gemini" "gemini-3-flash-preview" 0).ai_error = none ∧
    (AiAnalysis.normalize_analysis (AiAnalysis.parse_json AiAnalysis.ParseOutcome.jsonError)
        "gemini" "gemini-3-flash-preview" 0).ai_equivalent_sale_price = none ∧
    (AiAnalysis.normalize_analysis (AiAnalysis.parse_json AiAnalysis.ParseOutcome.jsonError)
        "gemini" "gemini-3-flash-preview" 0).ai_flip_candidate = none ∧
    (AiAnalysis.normalize_analysis (AiAnalysis.parse_json AiAnalysis.ParseOutcome.jsonError)
        "gemini" "gemini-3-flash-preview" 0).ai_estimated_profit = none :=
  ⟨rfl, rfl, rfl, rfl⟩

/-- C1, amended: results produced by `_normalize_analysis` itself always
have a null `ai_error`, including for malformed (non-JSON) provider text,
where every value field is null except `ai_needed_parts`, which
normalizes to the empty string. A non-null error arises in exactly two
ways: in the placeholder results (`_empty_result` and
`_default_ai_error`), where every value field is null, and in bulk mode,
where a truthy model-supplied per-entry `ai_error` string is preserved
onto the otherwise-normalized entry, whose value fields may be non-null —
so a non-null error does not imply null value fields. -/
theorem C1_error_field_amended :
    (∀ (parsed : JVal) (provider model : String) (cost : ℚ),
      (AiAnalysis.normalize_analysis parsed provider model cost).ai_error = none) ∧
    (∀ (provider model : String) (cost : ℚ),
      (AiAnalysis.normalize_analysis (AiAnalysis.parse_json AiAnalysis.ParseOutcome.jsonError)
          provider model cost).ai_flip_candidate = none ∧
      (AiAnalysis.normalize_analysis (AiAnalysis.parse_json AiAnalysis.ParseOutcome.jsonError)
          provider model cost).ai_equivalent_sale_price = none ∧
      (AiAnalysis.normalize_analysis (AiAnalysis.parse_json AiAnalysis.ParseOutcome.jsonError)
          provider model cost).ai_sell_ease = none ∧
      (AiAnalysis.normalize_analysis (AiAnalysis.parse_json AiAnalysis.ParseOutcome.jsonError)
          provider model cost).ai_needed_parts = some "" ∧
      (AiAnalysis.normalize_analysis (AiAnalysis.parse_json AiAnalysis.ParseOutcome.jsonError)
          provider model cost).ai_parts_cost_estimate = none ∧
      (AiAnalysis.normalize_analysis (AiAnalysis.parse_json AiAnalysis.ParseOutcome.jsonError)
          provider model cost).ai_confidence = none ∧
      (AiAnalysis.normalize_analysis (AiAnalysis.parse_json AiAnalysis.ParseOutcome.jsonError)
          provider model cost).ai_summary = none ∧
      (AiAnalysis.normalize_analysis (AiAnalysis.parse_json AiAnalysis.ParseOutcome.jsonError)
          provider model cost).ai_estimated_profit = none) ∧
    (∀ provider reason : String,
      (AiAnalysis.empty_result provider reason).ai_error = some reason ∧
      (AiAnalysis.empty_result provider reason).ai_flip_candidate = none ∧
      (AiAnalysis.empty_result provider reason).ai_equivalent_sale_price = none ∧
      (AiAnalysis.empty_result provider reason).ai_sell_ease = none ∧
      (AiAnalysis.empty_result provider reason).ai_needed_parts = none ∧
      (AiAnalysis.empty_result provider reason).ai_parts_cost_estimate = none ∧
      (AiAnalysis.empty_result provider reason).ai_confidence = none ∧
      (AiAnalysis.empty_result provider reason).ai_summary = none ∧
      (AiAnalysis.empty_result provider reason).ai_estimated_profit = none) ∧
    (∀ provider model message : String,
      (App.default_ai_error provider model message).ai_error = some message ∧
      (App.default_ai_error provider model message).ai_flip_candidate = none ∧
      (App.default_ai_error provider model message).ai_equivalent_sale_price = none ∧
      (App.default_ai_error provider model message).ai_sell_ease = none ∧
      (App.default_ai_error provider model message).ai_needed_parts = none ∧
      (App.default_ai_error provider model message).ai_parts_cost_estimate = none ∧
      (App.default_ai_error provider model message).ai_confidence = none ∧
      (App.default_ai_error provider model message).ai_summary = none ∧
      (App.default_ai_error provider model message).ai_estimated_profit = none) ∧
    (∀ (entry : JVal) (m : String),
      AiAnalysis.entry_result entry m =
        { AiAnalysis.normalize_analysis entry "gemini" m
            ((AiAnalysis.safe_float (pyGet entry "all_in_cost")).getD 0) with
          ai_error :=
            match pyGet entry "ai_error" with
            | none => none
            | some v => if pyTruthy v then some (pyStr v) else none }) ∧
    ((AiAnalysis.entry_result (.obj [("itemId", .str "A"), ("equivalent_sale_price", .num 150),
        ("ai_error", .str "model flagged")]) "m").ai_error = some "model flagged" ∧
     (AiAnalysis.entry_result (.obj [("itemId", .str "A"), ("equivalent_sale_price", .num 150),
        ("ai_error", .str "model flagged")]) "m").ai_equivalent_sale_price = some 150) ∧
    (App.gemini_process_all [⟨some (.str "A"), none, 0⟩] (some "gemini") (some "k") "m"
        (.text (.ok (.obj [("analyses",
          .arr [.obj [("itemId", .str "A"), ("equivalent_sale_price", .num 150),
                      ("ai_error", .str "model flagged")]])])))).map
      (fun r => (r.ai.ai_error, r.ai.ai_equivalent_sale_price)) =
      [(some "model flagged", some 150)] := by
  refine ⟨fun _ _ _ _ => rfl,
    fun _ _ _ => ⟨rfl, rfl, rfl, rfl, rfl, rfl, rfl, rfl⟩,
    fun _ _ => ⟨rfl, rfl, rfl, rfl, rfl, rfl, rfl, rfl, rfl⟩,
    fun _ _ _ => ⟨rfl, rfl, rfl, rfl, rfl, rfl, rfl, rfl, rfl⟩,
    ?_, ⟨rfl, rfl⟩, rfl⟩
  intro entry m
  cases hae : pyGet entry "ai_error" with
  | none =>
      simp only [AiAnalysis.entry_result, hae]
      rfl
  | some v =>
      by_cases hv : pyTruthy v
      · simp only [AiAnalysis.entry_result, hae, hv]
        rfl
      · simp only [AiAnalysis.entry_result, hae, hv]
        rfl

/-- C3: in every normalized Analysis Result, `ai_estimated_profit` is
present exactly when `ai_equivalent_sale_price` is present, and then
equals `equivalent_sale_price − all_in_cost − (parts_cost_estimate or 0)`;
in particular the spec's scenario 150/20 with cost 80 yields 50. -/
theorem C3_estimated_profit :
    (∀ (parsed : JVal) (provider model : String) (cost : ℚ),
      (AiAnalysis.normalize_analysis parsed provider model cost).ai_estimated_profit =
        (AiAnalysis.normalize_analysis parsed provider model cost).ai_equivalent_sale_price.map
          (fun e => e - cost -
            ((AiAnalysis.normalize_analysis parsed provider model cost).ai_parts_cost_estimate).getD 0)) ∧
    (AiAnalysis.normalize_analysis
        (.obj [("equivalent_sale_price", .num 150), ("parts_cost_estimate", .num 20)])
        "gemini" "gemini-3-flash-preview" 80).ai_estimated_profit = some 50 := by
  constructor
  · intro parsed provider model cost
    show (match AiAnalysis.safe_float (pyGet parsed "equivalent_sale_price") with
          | none => (none : Option ℚ)
          | some e => some (e - cost - (AiAnalysis.safe_float (pyGet parsed "parts_cost_estimate")).getD 0)) =
        Option.map
          (fun e => e - cost - (AiAnalysis.safe_float (pyGet parsed "parts_cost_estimate")).getD 0)
          (AiAnalysis.safe_float (pyGet parsed "equivalent_sale_price"))
    cases AiAnalysis.safe_float (pyGet parsed "equivalent_sale_price") <;> rfl
  · show some ((150 : ℚ) - 80 - 20) = some 50
    norm_num

/-- C4: `mark_seen` never raises on a duplicate; for an identifier not yet
in the store, the first call reports a fresh mark (returns the id), the
second call with any timestamp reports "already present" (returns `None`),
leaves the store unchanged, and the stored `first_seen_at` remains the
first timestamp. -/
theorem C4_mark_seen_idempotent (db : Storage.SeenDb) (item_id ts1 ts2 : String)
    (h : db.lookup item_id = none) :
    (Storage.mark_seen db item_id ts1).1 = some item_id ∧
    (Storage.mark_seen (Storage.mark_seen db item_id ts1).2 item_id ts2).1 = none ∧
    (Storage.mark_seen (Storage.mark_seen db item_id ts1).2 item_id ts2).2 =
      (Storage.mark_seen db item_id ts1).2 ∧
    (Storage.mark_seen db item_id ts1).2.lookup item_id = some ts1 := by
  have hdb1 : (Storage.mark_seen db item_id ts1).2 = db ++ [(item_id, ts1)] := by
    simp [Storage.mark_seen, h]
  have hlook : (db ++ [(item_id, ts1)]).lookup item_id = some ts1 := by
    rw [List.lookup_append, h]
    simp [List.lookup]
  refine ⟨by simp [Storage.mark_seen, h], ?_, ?_, ?_⟩
  · rw [hdb1]
    simp [Storage.mark_seen, hlook]
  · rw [hdb1]
    simp [Storage.mark_seen, hlook]
  · rw [hdb1]
    exact hlook

/-- Witness for C4 at the empty store. -/
theorem C4_mark_seen_idempotent_witness :
    (([] : Storage.SeenDb).lookup "A" = none) ∧
    ((Storage.mark_seen ([] : Storage.SeenDb) "A" "t1").1 = some "A" ∧
     (Storage.mark_seen (Storage.mark_seen ([] : Storage.SeenDb) "A" "t1").2 "A" "t2").1 = none ∧
     (Storage.mark_seen (Storage.mark_seen ([] : Storage.SeenDb) "A" "t1").2 "A" "t2").2 =
       (Storage.mark_seen ([] : Storage.SeenDb) "A" "t1").2 ∧
     (Storage.mark_seen ([] : Storage.SeenDb) "A" "t1").2.lookup "A" = some "t1") :=
  ⟨rfl, C4_mark_seen_idempotent [] "A" "t1" "t2" rfl⟩

theorem roundHalfEven_intCast (n : ℤ) : Scoring.roundHalfEven (n : ℚ) = n := by
  unfold Scoring.roundHalfEven Scoring.ratFloor
  simp only [Rat.num_intCast, Rat.den_intCast, Nat.cast_one, Int.fdiv_one, sub_self]
  norm_num

theorem round2_intCast (n : ℤ) : Scoring.round2 (n : ℚ) = n := by
  unfold Scoring.round2
  have h : ((n : ℚ) * 100) = ((n * 100 : ℤ) : ℚ) := by push_cast; ring
  rw [h, roundHalfEven_intCast]
  push_cast
  field_simp

/-- Lemma: `score_item` decomposes into the pre-price accumulation plus the
cost-band contribution of `specCostBand` (zero contribution and no tag
when the price cannot be parsed). -/
theorem score_item_band_decomp (item : JVal) (pct fs : ℚ) :
    Scoring.score_item item pct fs =
      { score := Scoring.round2 ((Scoring.score_item_core item pct fs).1 +
          (match (Scoring.extract_price item).2.2 with
           | none => 0
           | some c => (specCostBand c).1)),
        reasons := (Scoring.score_item_core item pct fs).2 ++
          (match (Scoring.extract_price item).2.2 with
           | none => []
           | some c => (specCostBand c).2) } := by
  simp only [Scoring.score_item, specCostBand]
  cases h : (Scoring.extract_price item).2.2 with
  | none => simp [h]
  | some c =>
      simp only [h]
      split_ifs with h1 h2 h3 <;> simp [sub_eq_add_neg]

/-- C5, counterexample: the claim (following the spec) asserts a zero
contribution for the unlabeled band "(100,300]", yet simultaneously +2
when all-in cost ≤ 200. At all-in cost 150 — inside (100,300] — the code
adds +2 with the reason `price:<=200`, not 0: an otherwise-empty listing
priced at 150 scores 2, while the same listing without a price scores 0
with no price reason. -/
theorem C5_cost_band_counterexample :
    Scoring.extract_pricing_all_in_cost (.obj [("price", .obj [("value", .num 150)])]) = some 150 ∧
    (100 : ℚ) < 150 ∧ (150 : ℚ) ≤ 300 ∧
    Scoring.score_item (.obj [("price", .obj [("value", .num 150)])]) (975 / 10) 50 =
      { score := 2,
        reasons := ["seller:missing_feedback_pct", "seller:missing_feedback_score",
                    "price:<=200"] } ∧
    Scoring.score_item (.obj []) (975 / 10) 50 =
      { score := 0,
        reasons := ["seller:missing_feedback_pct", "seller:missing_feedback_score"] } ∧
    (2 : ℚ) ≠ 0 := by
  have hall : (Scoring.extract_price (.obj [("price", .obj [("value", .num 150)])])).2.2 =
      some 150 := by
    show some ((150 : ℚ) + (Option.getD none 0)) = some 150
    norm_num
  refine ⟨hall, by norm_num, by norm_num, ?_, ?_, by norm_num⟩
  · have hd := score_item_band_decomp (.obj [("price", .obj [("value", .num 150)])]) (975 / 10) 50
    have hcore : Scoring.score_item_core (.obj [("price", .obj [("value", .num 150)])])
        (975 / 10) 50 =
        ((0 : ℚ), ["seller:missing_feedback_pct", "seller:missing_feedback_score"]) := rfl
    have hband : specCostBand 150 = ((2 : ℚ), ["price:<=200"]) := by
      unfold specCostBand
      norm_num
    rw [hd, hcore, hall]
    have h2 : Scoring.round2 (2 : ℚ) = 2 := by exact_mod_cast round2_intCast 2
    simp [hband, h2]
  · have hd := score_item_band_decomp (.obj []) (975 / 10) 50
    have hall0 : (Scoring.extract_price (.obj [])).2.2 = none := rfl
    have hcore : Scoring.score_item_core (.obj []) (975 / 10) 50 =
        ((0 : ℚ), ["seller:missing_feedback_pct", "seller:missing_feedback_score"]) := rfl
    rw [hd, hcore, hall0]
    have h0 : Scoring.round2 (0 : ℚ) = 0 := by exact_mod_cast round2_intCast 0
    simp [h0]

/-- C5, amended: for every listing whose price parses, `score_item` adds
exactly one cost-band contribution — +4 for cost ≤ 100, +2 for
(100,200], 0 (with no reason tag) for the unlabeled band (200,300], and
−3 for cost > 300; when the price cannot be parsed the cost-band block is
skipped entirely, with no reason tag and no score impact. -/
theorem C5_cost_band_amended (item : JVal) (pct fs : ℚ) :
    Scoring.score_item item pct fs =
      { score := Scoring.round2 ((Scoring.score_item_core item pct fs).1 +
          (match Scoring.extract_pricing_all_in_cost item with
           | none => 0
           | some c => (specCostBand c).1)),
        reasons := (Scoring.score_item_core item pct fs).2 ++
          (match Scoring.extract_pricing_all_in_cost item with
           | none => []
           | some c => (specCostBand c).2) } :=
  score_item_band_decomp item pct fs

theorem gpa_length (rows : List App.CandidateRow) (pe k : Option String) (m : String)
    (net : AiAnalysis.BulkNet) :
    (App.gemini_process_all rows pe k m net).length = rows.length := by
  cases h : AiAnalysis.analyze_gemini_bulk pe k m net with
  | error msg =>
      simp only [App.gemini_process_all, h]
      rw [(List.perm_insertionSort _ _).length_eq]
      simp [App.enrichRows]
  | ok results =>
      simp only [App.gemini_process_all, h]
      rw [(List.perm_insertionSort _ _).length_eq]
      simp [App.enrichRows]

theorem gpa_error_backfill {pe k : Option String} {m msg : String} {net : AiAnalysis.BulkNet}
    (h : AiAnalysis.analyze_gemini_bulk pe k m net = .error msg)
    (rows : List App.CandidateRow) :
    ∀ e ∈ App.gemini_process_all rows pe k m net,
      e.ai = App.default_ai_error "gemini" m msg := by
  intro e he
  simp only [App.gemini_process_all, h] at he
  have he2 := (List.perm_insertionSort _ _).mem_iff.mp he
  rcases List.mem_map.mp he2 with ⟨r, _, rfl⟩
  rfl

theorem gpa_ok_backfill {pe k : Option String} {m : String} {net : AiAnalysis.BulkNet}
    {results : List (String × AiAnalysis.AiResult)}
    (h : AiAnalysis.analyze_gemini_bulk pe k m net = .ok results)
    (rows : List App.CandidateRow) :
    ∀ e ∈ App.gemini_process_all rows pe k m net,
      results.lookup (App.rowIdStr e.row) = none →
      e.ai = App.default_ai_error "gemini" m "No per-item AI output from bulk response" := by
  intro e he hnone
  simp only [App.gemini_process_all, h] at he
  have he2 := (List.perm_insertionSort _ _).mem_iff.mp he
  rcases List.mem_map.mp he2 with ⟨r, _, rfl⟩
  have hn2 : results.lookup (App.rowIdStr r) = none := hnone
  show (match results.lookup (App.rowIdStr r) with
        | none => App.default_ai_error "gemini" m "No per-item AI output from bulk response"
        | some a => a) =
      App.default_ai_error "gemini" m "No per-item AI output from bulk response"
  rw [hn2]

/-- C2: bulk mode always emits exactly one Analysis Result per candidate
row; an identifier not echoed back receives the schema-complete
`_default_ai_error` placeholder, and when the batch call fails outright
every row receives the same error string (the exception text). -/
theorem C2_bulk_backfill (rows : List App.CandidateRow) (pe k : Option String) (m : String)
    (net : AiAnalysis.BulkNet) :
    (App.gemini_process_all rows pe k m net).length = rows.length ∧
    (∀ msg : String, AiAnalysis.analyze_gemini_bulk pe k m net = .error msg →
      ∀ e ∈ App.gemini_process_all rows pe k m net,
        e.ai = App.default_ai_error "gemini" m msg) ∧
    (∀ results : List (String × AiAnalysis.AiResult),
      AiAnalysis.analyze_gemini_bulk pe k m net = .ok results →
      ∀ e ∈ App.gemini_process_all rows pe k m net,
        results.lookup (App.rowIdStr e.row) = none →
        e.ai = App.default_ai_error "gemini" m "No per-item AI output from bulk response") :=
  ⟨gpa_length rows pe k m net,
   fun _ h => gpa_error_backfill h rows,
   fun _ h => gpa_ok_backfill h rows⟩

/-- Witness for C2: one candidate row, batch call failing with "boom". -/
theorem C2_bulk_backfill_witness :
    AiAnalysis.analyze_gemini_bulk (some "gemini") (some "k") "m" (.raised "boom") =
      .error "boom" ∧
    (App.gemini_process_all [⟨some (.str "A"), none, 0⟩] (some "gemini") (some "k") "m"
        (.raised "boom")).length = 1 ∧
    (⟨⟨some (.str "A"), none, 0⟩, App.default_ai_error "gemini" "m" "boom"⟩ : App.EnrichedRow) ∈
      App.gemini_process_all [⟨some (.str "A"), none, 0⟩] (some "gemini") (some "k") "m"
        (.raised "boom") ∧
    (⟨⟨some (.str "A"), none, 0⟩, App.default_ai_error "gemini" "m" "boom"⟩ :
        App.EnrichedRow).ai = App.default_ai_error "gemini" "m" "boom" := by
  have hmem : (⟨⟨some (.str "A"), none, 0⟩,
      App.default_ai_error "gemini" "m" "boom"⟩ : App.EnrichedRow) ∈
      App.gemini_process_all [⟨some (.str "A"), none, 0⟩] (some "gemini") (some "k") "m"
        (.raised "boom") :=
    List.Mem.head _
  refine ⟨rfl, ?_, hmem, ?_⟩
  · exact (C2_bulk_backfill [⟨some (.str "A"), none, 0⟩] (some "gemini") (some "k") "m"
      (.raised "boom")).1
  · exact (C2_bulk_backfill [⟨some (.str "A"), none, 0⟩] (some "gemini") (some "k") "m"
      (.raised "boom")).2.1 "boom" rfl _ hmem

/-- C8, counterexample: a missing `GEMINI_API_KEY` is a configuration
error, and `analyze_gemini_bulk` does raise for it — but the orchestrator
`_gemini_process_all` catches `AiAnalysisError` and degrades the failure
into per-item error results: the run continues and produces one
error-tagged row per candidate instead of aborting. -/
theorem C8_config_error_counterexample :
    AiAnalysis.analyze_gemini_bulk (some "gemini") none "m" (.text (.ok (.obj []))) =
      .error "GEMINI_API_KEY missing" ∧
    App.gemini_process_all [⟨some (.str "A"), none, 0⟩] (some "gemini") none "m"
        (.text (.ok (.obj []))) =
      [⟨⟨some (.str "A"), none, 0⟩,
        App.default_ai_error "gemini" "m" "GEMINI_API_KEY missing"⟩] :=
  ⟨rfl, rfl⟩

/-- C8, amended: missing eBay credentials abort the run before any work
(`RuntimeError` in `main`); invoking bulk analysis with a non-gemini
provider raises, and `main` never enters the bulk path then; a missing
`GEMINI_API_KEY` also makes `analyze_gemini_bulk` raise — but the
orchestrator catches that `AiAnalysisError` and degrades it into per-item
error results (with a log line), so only the eBay-credential check is
fatal to the run. -/
theorem C8_config_error_amended :
    (∀ cid cs : Option String,
      AiAnalysis.strOptTruthy cid = false ∨ AiAnalysis.strOptTruthy cs = false →
      App.main_cred_check cid cs =
        .error "Missing EBAY_CLIENT_ID or EBAY_CLIENT_SECRET in environment") ∧
    (∀ (pe k : Option String) (m : String) (net : AiAnalysis.BulkNet),
      AiAnalysis.providerOf pe ≠ "gemini" →
      AiAnalysis.analyze_gemini_bulk pe k m net =
        .error "Bulk Gemini analysis requires AI_PROVIDER=gemini" ∧
      App.main_runs_bulk pe = false) ∧
    (∀ (pe k : Option String) (m : String) (net : AiAnalysis.BulkNet),
      AiAnalysis.providerOf pe = "gemini" → AiAnalysis.strOptTruthy k = false →
      AiAnalysis.analyze_gemini_bulk pe k m net = .error "GEMINI_API_KEY missing") ∧
    (∀ (rows : List App.CandidateRow) (pe k : Option String) (m msg : String)
        (net : AiAnalysis.BulkNet),
      AiAnalysis.analyze_gemini_bulk pe k m net = .error msg →
      ∀ e ∈ App.gemini_process_all rows pe k m net,
        e.ai = App.default_ai_error "gemini" m msg) := by
  refine ⟨?_, ?_, ?_, ?_⟩
  · intro cid cs h
    rcases h with h | h <;> simp [App.main_cred_check, h]
  · intro pe k m net h
    constructor
    · simp [AiAnalysis.analyze_gemini_bulk, h]
    · simp [App.main_runs_bulk, h]
  · intro pe k m net hp hk
    simp [AiAnalysis.analyze_gemini_bulk, hp, hk]
  · exact fun rows pe k m msg net h => gpa_error_backfill h rows

/-- Witness for C8 at concrete configurations. -/
theorem C8_config_error_amended_witness :
    (AiAnalysis.strOptTruthy (none : Option String) = false ∧
      App.main_cred_check none (some "s") =
        .error "Missing EBAY_CLIENT_ID or EBAY_CLIENT_SECRET in environment") ∧
    (AiAnalysis.providerOf (some "openai") ≠ "gemini" ∧
      AiAnalysis.analyze_gemini_bulk (some "openai") (some "k") "m" (.raised "x") =
        .error "Bulk Gemini analysis requires AI_PROVIDER=gemini" ∧
      App.main_runs_bulk (some "openai") = false) ∧
    (AiAnalysis.providerOf (some "gemini") = "gemini" ∧
      AiAnalysis.strOptTruthy (none : Option String) = false ∧
      AiAnalysis.analyze_gemini_bulk (some "gemini") none "m" (.raised "x") =
        .error "GEMINI_API_KEY missing") ∧
    ((⟨⟨some (.str "A"), none, 0⟩,
        App.default_ai_error "gemini" "m" "GEMINI_API_KEY missing"⟩ : App.EnrichedRow).ai =
      App.default_ai_error "gemini" "m" "GEMINI_API_KEY missing") := by
  have hne : AiAnalysis.providerOf (some "openai") ≠ "gemini" := by decide
  have h2 := C8_config_error_amended.2.1 (some "openai") (some "k") "m" (.raised "x") hne
  have hmem : (⟨⟨some (.str "A"), none, 0⟩,
      App.default_ai_error "gemini" "m" "GEMINI_API_KEY missing"⟩ : App.EnrichedRow) ∈
      App.gemini_process_all [⟨some (.str "A"), none, 0⟩] (some "gemini") none "m"
        (.text (.ok (.obj []))) :=
    List.Mem.head _
  refine ⟨⟨rfl, C8_config_error_amended.1 none (some "s") (Or.inl rfl)⟩,
          ⟨hne, h2.1, h2.2⟩,
          ⟨rfl, rfl,
            C8_config_error_amended.2.2.1 (some "gemini") none "m" (.raised "x") rfl rfl⟩,
          C8_config_error_amended.2.2.2 [⟨some (.str "A"), none, 0⟩] (some "gemini") none
            "m" "GEMINI_API_KEY missing" (.text (.ok (.obj []))) rfl _ hmem⟩

theorem ai_loop_retriable_step (att : ℕ → AiAnalysis.HttpAttempt) (attempt fuel : ℕ)
    (h : aiAttemptRetriable (att attempt) = true) :
    AiAnalysis.ai_request_loop att attempt (fuel + 1) =
      ((AiAnalysis.ai_request_loop att (attempt + 1) fuel).1,
       (2 * 2 ^ attempt : ℚ) :: (AiAnalysis.ai_request_loop att (attempt + 1) fuel).2) := by
  cases ha : att attempt with
  | netError => simp [AiAnalysis.ai_request_loop, ha]
  | resp s b =>
      have hs : AiAnalysis.aiRetriable s = true := by
        rw [ha] at h
        exact h
      simp [AiAnalysis.ai_request_loop, ha, hs]

theorem ebay_loop_429_step (att : ℕ → EbayApi.EbayAttempt) (attempt fuel : ℕ)
    (h : isResp429 (att attempt) = true) :
    EbayApi.ebay_request_loop att attempt (fuel + 1) =
      ((EbayApi.ebay_request_loop att (attempt + 1) fuel).1,
       (1 * 2 ^ attempt : ℚ) :: (EbayApi.ebay_request_loop att (attempt + 1) fuel).2) := by
  cases ha : att attempt with
  | netError =>
      rw [ha] at h
      exact absurd h (by simp [isResp429])
  | resp s j t =>
      have hs : s = 429 := by
        rw [ha] at h
        simpa [isResp429] using h
      subst hs
      simp [EbayApi.ebay_request_loop, ha]

/-- C6, counterexample: the claim asserts both transports retry on network
errors and on statuses 429/500/502/503/504. The listing-source transport
does neither: a 500 response raises `EbayApiError` immediately with no
back-off sleep, and a network-level exception propagates uncaught. -/
theorem C6_transport_retry_counterexample :
    EbayApi.request_with_backoff (fun _ => .resp 500 none "server error") =
      (.apiError (.generic 500), []) ∧
    EbayApi.request_with_backoff (fun _ => .netError) = (.uncaught, []) :=
  ⟨rfl, rfl⟩

/-- C6, amended: the analysis transport (6 attempts, base delay 2.0)
retries on network-level transient errors and on exactly 429/500/502/503/
504, sleeping `base_delay * 2^attempt` from attempt 0, raising immediately
with status and 500-character-truncated body on any other ≥400 status, and
raising a distinct retries-exceeded error on exhaustion; the
listing-source transport (5 attempts, base delay 1.0) retries only on 429
with the same exponential schedule, raises `EbayApiError` immediately on
any other ≥400 status, does not catch network-level errors, and raises a
distinct retries-exceeded error on exhaustion. -/
theorem C6_transport_retry_amended :
    (∀ att : ℕ → AiAnalysis.HttpAttempt,
      (∀ i, i < 6 → aiAttemptRetriable (att i) = true) →
      AiAnalysis.request_with_backoff att =
        (.retriesExceeded, [2, 4, 8, 16, 32, 64])) ∧
    (∀ (att : ℕ → AiAnalysis.HttpAttempt) (s : ℕ) (b : String),
      att 0 = .resp s b → AiAnalysis.aiRetriable s = false → 400 ≤ s →
      AiAnalysis.request_with_backoff att =
        (.error ("AI HTTP " ++ toString s ++ ": " ++ b.take 500), [])) ∧
    (∀ (att : ℕ → AiAnalysis.HttpAttempt) (s : ℕ) (b : String),
      att 0 = .resp s b → s < 400 →
      AiAnalysis.request_with_backoff att = (.ok s b, [])) ∧
    (∀ att : ℕ → EbayApi.EbayAttempt,
      (∀ i, i < 5 → isResp429 (att i) = true) →
      EbayApi.request_with_backoff att = (.retriesExceeded, [1, 2, 4, 8, 16])) ∧
    (∀ (att : ℕ → EbayApi.EbayAttempt) (s : ℕ) (j : Option JVal) (t : String),
      att 0 = .resp s j t → s ≠ 429 → 400 ≤ s →
      EbayApi.request_with_backoff att = (.apiError (EbayApi.ebayRaise s j), [])) ∧
    (∀ att : ℕ → EbayApi.EbayAttempt,
      att 0 = .netError → EbayApi.request_with_backoff att = (.uncaught, [])) := by
  refine ⟨?_, ?_, ?_, ?_, ?_, ?_⟩
  · intro att h
    simp only [AiAnalysis.request_with_backoff]
    rw [ai_loop_retriable_step att 0 5 (h 0 (by omega)),
        ai_loop_retriable_step att 1 4 (h 1 (by omega)),
        ai_loop_retriable_step att 2 3 (h 2 (by omega)),
        ai_loop_retriable_step att 3 2 (h 3 (by omega)),
        ai_loop_retriable_step att 4 1 (h 4 (by omega)),
        ai_loop_retriable_step att 5 0 (h 5 (by omega))]
    norm_num [AiAnalysis.ai_request_loop]
  · intro att s b h0 hnr h4
    simp only [AiAnalysis.request_with_backoff]
    simp [AiAnalysis.ai_request_loop, h0, hnr, h4]
  · intro att s b h0 hlt
    have hnr : AiAnalysis.aiRetriable s = false := by
      simp only [AiAnalysis.aiRetriable]
      simp only [Bool.or_eq_false_iff, decide_eq_false_iff_not]
      omega
    have h4 : ¬(400 ≤ s) := by omega
    simp only [AiAnalysis.request_with_backoff]
    simp [AiAnalysis.ai_request_loop, h0, hnr, h4]
  · intro att h
    simp only [EbayApi.request_with_backoff]
    rw [ebay_loop_429_step att 0 4 (h 0 (by omega)),
        ebay_loop_429_step att 1 3 (h 1 (by omega)),
        ebay_loop_429_step att 2 2 (h 2 (by omega)),
        ebay_loop_429_step att 3 1 (h 3 (by omega)),
        ebay_loop_429_step att 4 0 (h 4 (by omega))]
    norm_num [EbayApi.ebay_request_loop]
  · intro att s j t h0 hne h4
    simp only [EbayApi.request_with_backoff]
    simp [EbayApi.ebay_request_loop, h0, hne, h4]
  · intro att h0
    simp only [EbayApi.request_with_backoff]
    simp [EbayApi.ebay_request_loop, h0]

/-- Witness for C6: a 404 on the analysis transport raises immediately
with the truncated body and no sleeps. -/
theorem C6_transport_retry_amended_witness :
    AiAnalysis.aiRetriable 404 = false ∧ 400 ≤ 404 ∧
    AiAnalysis.request_with_backoff (fun _ => .resp 404 "not found") =
      (.error ("AI HTTP " ++ toString 404 ++ ": " ++ "not found".take 500), []) :=
  ⟨rfl, by decide,
   C6_transport_retry_amended.2.1 (fun _ => .resp 404 "not found") 404 "not found" rfl rfl
     (by decide)⟩

theorem apply_rate_limit_five (rpmEnv : Option ℤ) (hrpm : rpmEnv = none ∨ rpmEnv = some 5)
    (lastTs now : ℚ) :
    AiAnalysis.apply_rate_limit rpmEnv lastTs now =
      (now + (if lastTs > 0 ∧ now - lastTs < 12 then 12 - (now - lastTs) else 0),
       now + (if lastTs > 0 ∧ now - lastTs < 12 then 12 - (now - lastTs) else 0)) := by
  rcases hrpm with rfl | rfl <;>
    simp only [AiAnalysis.apply_rate_limit, Option.getD] <;>
    norm_num

theorem rate_limit_gap (rpmEnv : Option ℤ) (hrpm : rpmEnv = none ∨ rpmEnv = some 5)
    (lastTs now : ℚ) (hpos : 0 < lastTs) :
    (AiAnalysis.apply_rate_limit rpmEnv lastTs now).1 - lastTs ≥ 12 ∧
    (AiAnalysis.apply_rate_limit rpmEnv lastTs now).2 =
      (AiAnalysis.apply_rate_limit rpmEnv lastTs now).1 := by
  rw [apply_rate_limit_five rpmEnv hrpm]
  dsimp only
  refine ⟨?_, rfl⟩
  by_cases hc : lastTs > 0 ∧ now - lastTs < 12
  · rw [if_pos hc]
    linarith
  · rw [if_neg hc]
    push_neg at hc
    have := hc hpos
    linarith

/-- C7: under a 5-requests-per-minute budget (explicit or the default),
two consecutive passes through `_apply_rate_limit` are never permitted
less than 12 seconds apart under the idealized clock, and after each pass
the shared last-request timestamp equals the post-wait exit time (it is
written after the wait completes, not before). -/
theorem C7_rate_limiter_spacing (rpmEnv : Option ℤ) (lastTs now1 now2 : ℚ)
    (hrpm : rpmEnv = none ∨ rpmEnv = some 5) (h1 : 0 < now1) :
    (AiAnalysis.apply_rate_limit rpmEnv lastTs now1).2 =
      (AiAnalysis.apply_rate_limit rpmEnv lastTs now1).1 ∧
    (AiAnalysis.apply_rate_limit rpmEnv
        ((AiAnalysis.apply_rate_limit rpmEnv lastTs now1).2) now2).2 =
      (AiAnalysis.apply_rate_limit rpmEnv
        ((AiAnalysis.apply_rate_limit rpmEnv lastTs now1).2) now2).1 ∧
    (AiAnalysis.apply_rate_limit rpmEnv
        ((AiAnalysis.apply_rate_limit rpmEnv lastTs now1).2) now2).1 -
      (AiAnalysis.apply_rate_limit rpmEnv lastTs now1).1 ≥ 12 := by
  have e1 := apply_rate_limit_five rpmEnv hrpm lastTs now1
  have h21 : (AiAnalysis.apply_rate_limit rpmEnv lastTs now1).2 =
      (AiAnalysis.apply_rate_limit rpmEnv lastTs now1).1 := by rw [e1]
  have hpos : 0 < (AiAnalysis.apply_rate_limit rpmEnv lastTs now1).2 := by
    rw [e1]
    dsimp only
    by_cases hc : lastTs > 0 ∧ now1 - lastTs < 12
    · rw [if_pos hc]
      linarith [hc.1]
    · rw [if_neg hc]
      linarith
  have gap := rate_limit_gap rpmEnv hrpm ((AiAnalysis.apply_rate_limit rpmEnv lastTs now1).2)
    now2 hpos
  refine ⟨h21, gap.2, ?_⟩
  rw [← h21]
  exact gap.1

/-- Witness for C7: first pass from the initial (zero) timestamp at time
100, second pass at time 112. -/
theorem C7_rate_limiter_spacing_witness :
    ((some (5 : ℤ)) = none ∨ (some (5 : ℤ)) = some 5) ∧ ((0 : ℚ) < 100) ∧
    ((AiAnalysis.apply_rate_limit (some 5) 0 100).2 =
        (AiAnalysis.apply_rate_limit (some 5) 0 100).1 ∧
     (AiAnalysis.apply_rate_limit (some 5)
        ((AiAnalysis.apply_rate_limit (some 5) 0 100).2) 112).2 =
       (AiAnalysis.apply_rate_limit (some 5)
          ((AiAnalysis.apply_rate_limit (some 5) 0 100).2) 112).1 ∧
     (AiAnalysis.apply_rate_limit (some 5)
        ((AiAnalysis.apply_rate_limit (some 5) 0 100).2) 112).1 -
       (AiAnalysis.apply_rate_limit (some 5) 0 100).1 ≥ 12) :=
  ⟨Or.inr rfl, by decide,
   C7_rate_limiter_spacing (some 5) 0 100 112 (Or.inr rfl) (by decide)⟩

theorem leEnriched_iff (a b : App.EnrichedRow) :
    App.leEnriched a b = true ↔ specEnrichedOrder a b := by
  unfold App.leEnriched specEnrichedOrder
  rcases a.ai.ai_estimated_profit with _ | x <;> rcases b.ai.ai_estimated_profit with _ | y <;>
    simp [decide_eq_true_eq]

theorem leEnriched_total (a b : App.EnrichedRow) :
    App.leEnriched a b = true ∨ App.leEnriched b a = true := by
  rw [leEnriched_iff, leEnriched_iff]
  unfold specEnrichedOrder
  rcases ha : a.ai.ai_estimated_profit with _ | x <;>
    rcases hb : b.ai.ai_estimated_profit with _ | y <;> simp only []
  · exact le_total b.row.score_total a.row.score_total
  · right
    trivial
  · left
    trivial
  · rcases lt_trichotomy x y with h | h | h
    · right
      left
      exact h
    · rcases le_total b.row.score_total a.row.score_total with hs | hs
      · left
        right
        exact ⟨h, hs⟩
      · right
        right
        exact ⟨h.symm, hs⟩
    · left
      left
      exact h

theorem leEnriched_trans (a b c : App.EnrichedRow) (hab : App.leEnriched a b = true)
    (hbc : App.leEnriched b c = true) : App.leEnriched a c = true := by
  rw [leEnriched_iff] at hab hbc ⊢
  unfold specEnrichedOrder at hab hbc ⊢
  rcases ha : a.ai.ai_estimated_profit with _ | x <;>
    rcases hb : b.ai.ai_estimated_profit with _ | y <;>
    rcases hc : c.ai.ai_estimated_profit with _ | z <;>
    simp only [ha, hb, hc] at hab hbc ⊢ <;>
    first
    | exact le_trans hbc hab
    | trivial
    | exact hab.elim
    | exact hbc.elim
    | (rcases hab with h1 | ⟨h1, h2⟩ <;> rcases hbc with h3 | ⟨h3, h4⟩ <;>
        first
        | (left; linarith)
        | (right; exact ⟨by linarith, by linarith⟩))

theorem sorted_insertionSort_enriched (l : List App.EnrichedRow) :
    List.Sorted specEnrichedOrder
      (List.insertionSort (fun a b => App.leEnriched a b = true) l) := by
  haveI : IsTotal App.EnrichedRow (fun a b => App.leEnriched a b = true) := ⟨leEnriched_total⟩
  haveI : IsTrans App.EnrichedRow (fun a b => App.leEnriched a b = true) := ⟨leEnriched_trans⟩
  exact List.Pairwise.imp (fun h => (leEnriched_iff _ _).mp h)
    (List.sorted_insertionSort (fun a b => App.leEnriched a b = true) l)

theorem leBase_iff (a b : App.CandidateRow) :
    App.leBase a b = true ↔ specBaseOrder a b := by
  unfold App.leBase specBaseOrder
  rcases a.all_in_cost with _ | x <;> rcases b.all_in_cost with _ | y <;>
    simp [decide_eq_true_eq]

theorem leBase_total (a b : App.CandidateRow) :
    App.leBase a b = true ∨ App.leBase b a = true := by
  rw [leBase_iff, leBase_iff]
  unfold specBaseOrder
  rcases lt_trichotomy a.score_total b.score_total with h | h | h
  · right
    left
    exact h
  · rcases ha : a.all_in_cost with _ | x <;> rcases hb : b.all_in_cost with _ | y <;>
      simp only []
    · left
      exact Or.inr ⟨h, trivial⟩
    · right
      exact Or.inr ⟨h.symm, trivial⟩
    · left
      exact Or.inr ⟨h, trivial⟩
    · rcases le_total x y with hs | hs
      · left
        exact Or.inr ⟨h, hs⟩
      · right
        exact Or.inr ⟨h.symm, hs⟩
  · left
    left
    exact h

theorem leBase_trans (a b c : App.CandidateRow) (hab : App.leBase a b = true)
    (hbc : App.leBase b c = true) : App.leBase a c = true := by
  rw [leBase_iff] at hab hbc ⊢
  unfold specBaseOrder at hab hbc ⊢
  rcases hab with h1 | ⟨h1, h2⟩ <;> rcases hbc with h3 | ⟨h3, h4⟩
  · left
    linarith
  · left
    linarith
  · left
    linarith
  · right
    refine ⟨by linarith, ?_⟩
    rcases ha : a.all_in_cost with _ | x <;> rcases hb : b.all_in_cost with _ | y <;>
      rcases hc : c.all_in_cost with _ | z <;>
      simp only [ha, hb, hc] at h2 h4 ⊢ <;>
      first
      | trivial
      | exact h2.elim
      | exact h4.elim
      | exact le_trans h2 h4

theorem sorted_insertionSort_base (l : List App.CandidateRow) :
    List.Sorted specBaseOrder (List.insertionSort (fun a b => App.leBase a b = true) l) := by
  haveI : IsTotal App.CandidateRow (fun a b => App.leBase a b = true) := ⟨leBase_total⟩
  haveI : IsTrans App.CandidateRow (fun a b => App.leBase a b = true) := ⟨leBase_trans⟩
  exact List.Pairwise.imp (fun h => (leBase_iff _ _).mp h)
    (List.sorted_insertionSort (fun a b => App.leBase a b = true) l)

/-- C9: every ranked batch the orchestrator produces is ordered by
estimated profit descending with nulls last, then score descending
(enriched output), and every un-enriched candidates batch is ordered by
score descending then all-in cost ascending. -/
theorem C9_sort_contract :
    (∀ (rows : List App.CandidateRow) (pe k : Option String) (m : String)
        (net : AiAnalysis.BulkNet),
      List.Sorted specEnrichedOrder (App.gemini_process_all rows pe k m net)) ∧
    (∀ rows : List App.CandidateRow, List.Sorted specBaseOrder (App.base_sorted rows)) := by
  constructor
  · intro rows pe k m net
    unfold App.gemini_process_all
    exact sorted_insertionSort_enriched _
  · intro rows
    unfold App.base_sorted
    exact sorted_insertionSort_base _

theorem normalize_profit_eq (p : JVal) (prov mo : String) (cost : ℚ) :
    (AiAnalysis.normalize_analysis p prov mo cost).ai_estimated_profit =
      match AiAnalysis.safe_float (pyGet p "equivalent_sale_price") with
      | none => none
      | some e =>
          some (e - cost - (AiAnalysis.safe_float (pyGet p "parts_cost_estimate")).getD 0) :=
  rfl

/-- C10: in bulk mode the `all_in_cost` used to compute an echoed entry's
`estimated_profit` is the value echoed back inside the provider's entry
(coerced with `_safe_float`, defaulting to 0.0 when missing or
unparseable) — the Candidate Row's own `all_in_cost` plays no role: the
per-entry result is a function of the entry alone, and in the full
pipeline the computed profit is unchanged for every value of the row's
own cost. -/
theorem C10_bulk_echoed_cost :
    (∀ (entry : JVal) (m : String) (e : ℚ),
      AiAnalysis.safe_float (pyGet entry "equivalent_sale_price") = some e →
      (AiAnalysis.entry_result entry m).ai_estimated_profit =
        some (e - (AiAnalysis.safe_float (pyGet entry "all_in_cost")).getD 0 -
          (AiAnalysis.safe_float (pyGet entry "parts_cost_estimate")).getD 0)) ∧
    (∀ rowCost : Option ℚ,
      (App.gemini_process_all [⟨some (.str "A"), rowCost, 0⟩] (some "gemini") (some "k") "m"
          (.text (.ok (.obj [("analyses",
            .arr [.obj [("itemId", .str "A"), ("equivalent_sale_price", .num 150),
                        ("all_in_cost", .num 70)]])])))).map
        (fun r => r.ai.ai_estimated_profit) = [some 80]) := by
  constructor
  · intro entry m e he
    cases hae : pyGet entry "ai_error" with
    | none =>
        simp only [AiAnalysis.entry_result, hae]
        rw [normalize_profit_eq, he]
    | some v =>
        simp only [AiAnalysis.entry_result, hae]
        split_ifs
        · show (AiAnalysis.normalize_analysis entry "gemini" m
            ((AiAnalysis.safe_float (pyGet entry "all_in_cost")).getD 0)).ai_estimated_profit = _
          rw [normalize_profit_eq, he]
        · rw [normalize_profit_eq, he]
  · intro rowCost
    show [some ((150 : ℚ) - 70 - 0)] = [some 80]
    norm_num

/-- Witness for C10 at a concrete echoed entry. -/
theorem C10_bulk_echoed_cost_witness :
    AiAnalysis.safe_float (pyGet (.obj [("itemId", .str "A"),
        ("equivalent_sale_price", .num 150), ("all_in_cost", .num 70)])
        "equivalent_sale_price") = some 150 ∧
    (AiAnalysis.entry_result (.obj [("itemId", .str "A"), ("equivalent_sale_price", .num 150),
        ("all_in_cost", .num 70)]) "m").ai_estimated_profit =
      some (150 - (AiAnalysis.safe_float (pyGet (.obj [("itemId", .str "A"),
          ("equivalent_sale_price", .num 150), ("all_in_cost", .num 70)])
          "all_in_cost")).getD 0 -
        (AiAnalysis.safe_float (pyGet (.obj [("itemId", .str "A"),
          ("equivalent_sale_price", .num 150), ("all_in_cost", .num 70)])
          "parts_cost_estimate")).getD 0) :=
  ⟨rfl,
   C10_bulk_echoed_cost.1 (.obj [("itemId", .str "A"), ("equivalent_sale_price", .num 150),
     ("all_in_cost", .num 70)]) "m" 150 rfl⟩
